import Mathlib

/-!
Shallow embedding of the traced Flask application in src/app.py.

The application is a single Python file exposing six HTTP routes; each
handler wraps its work in OpenTelemetry spans opened with
tracer.start_as_current_span, attaches attributes and events, and a global
Flask errorhandler converts uncaught exceptions into a 500 JSON envelope.

Modelling choices:
  * JSON payloads are a small inductive JValue (objects keep field order).
  * Machine floats are modelled as exact rationals; Python time.time() is a
    monotone clock carried in the trace state, and time.sleep(d) advances it
    by d.
  * random.uniform(a, b) is modelled, following the Python documentation,
    as a + (b - a) * u for a draw u in [0, 1); random.random() is a draw in
    [0, 1).  Draws are explicit parameters of the handlers.
  * The tracer itself (opentelemetry) is not part of this repository; its
    operations are modelled from the spec, section 4.1: scoped spans close
    on every exit path recording the end time, a close never changes an
    explicitly set status and leaves an unset status Unset, set_attribute
    overwrites an existing key, events keep insertion order, and the
    current-span pointer is a stack restored on close.
  * A Python raise is an Except.error value; the with-block closes its span
    while the exception unwinds, before Flask dispatch sees the error.
-/

namespace AppTrace

/-- JSON-like values standing for the Python dict/list payloads in app.py. -/
inductive JValue where
  | jnull : JValue
  | jbool : Bool → JValue
  | jnum : ℚ → JValue
  | jstr : String → JValue
  | jarr : List JValue → JValue
  | jobj : List (String × JValue) → JValue

/-- Span status codes of the tracing API (StatusCode in app.py). -/
inductive SpanStatusCode where
  | unset : SpanStatusCode
  | ok : SpanStatusCode
  | error : SpanStatusCode
  deriving DecidableEq

/-- A span status: a code plus an optional description string (Status in
app.py); an absent description is the empty string. -/
structure SpanStatus where
  code : SpanStatusCode
  message : String
  deriving DecidableEq

/-- A timestamped span event with optional key/value payload
(span.add_event in app.py). -/
structure SpanEvent where
  name : String
  payload : List (String × JValue)
  time : ℚ

/-- One span record: name, start and end time, status, attributes in
insertion order, events in insertion order, recorded exception messages,
and the index of the parent span if the span was opened while another span
was current.  endTime = none while the span is open. -/
structure SpanData where
  name : String
  startTime : ℚ
  endTime : Option ℚ
  status : SpanStatus
  attrs : List (String × JValue)
  events : List SpanEvent
  exceptions : List String
  parent : Option Nat

/-- Request-local tracing state: the wall clock (seconds since epoch), the
ordered log of all spans created so far (indices into this list are span
handles), and the stack of currently open span indices, innermost first;
the head of the stack is the current span. -/
structure TraceState where
  clock : ℚ
  spans : List SpanData
  stack : List Nat

/-- Replace the element at an index of a list by applying f, leaving the
list unchanged when the index is out of range. -/
def updateAt (f : α → α) : Nat → List α → List α
  | _, [] => []
  | 0, a :: as => f a :: as
  | n + 1, a :: as => a :: updateAt f n as

/-- Overwrite the value at a key of an association list, appending the pair
when the key is absent (set_attribute overwrites on repeated keys per the
spec, section 4.1). -/
def setKey (kvs : List (String × JValue)) (k : String) (v : JValue) :
    List (String × JValue) :=
  if kvs.any (fun p => p.1 = k) then
    kvs.map (fun p => if p.1 = k then (k, v) else p)
  else
    kvs ++ [(k, v)]

/-- Modelled from the spec: tracer.start_as_current_span begins a new span
nested under the currently active span, records the start time, and makes
it the current span (spec, section 4.1, start_span).  Returns the handle. -/
def TraceState.startSpan (st : TraceState) (name : String) :
    Nat × TraceState :=
  let idx := st.spans.length
  (idx,
    { st with
      spans := st.spans ++
        [{ name := name, startTime := st.clock, endTime := none,
           status := ⟨.unset, ""⟩, attrs := [], events := [],
           exceptions := [], parent := st.stack.head? }],
      stack := idx :: st.stack })

/-- Apply an update to the span with the given handle. -/
def TraceState.modifySpan (st : TraceState) (idx : Nat)
    (f : SpanData → SpanData) : TraceState :=
  { st with spans := updateAt f idx st.spans }

/-- Modelled from the spec: span.set_attribute attaches a scalar key/value,
overwriting on a repeated key (spec, section 4.1). -/
def TraceState.setAttribute (st : TraceState) (idx : Nat) (k : String)
    (v : JValue) : TraceState :=
  st.modifySpan idx (fun s => { s with attrs := setKey s.attrs k v })

/-- Modelled from the spec: span.add_event appends a timestamped event with
optional payload, preserving insertion order (spec, section 4.1). -/
def TraceState.addEvent (st : TraceState) (idx : Nat) (name : String)
    (payload : List (String × JValue)) : TraceState :=
  st.modifySpan idx
    (fun s => { s with events := s.events ++ [⟨name, payload, st.clock⟩] })

/-- Modelled from the spec: span.set_status sets the terminal status
(spec, section 4.1). -/
def TraceState.setStatus (st : TraceState) (idx : Nat)
    (code : SpanStatusCode) (message : String) : TraceState :=
  st.modifySpan idx (fun s => { s with status := ⟨code, message⟩ })

/-- Modelled from the spec: span.record_exception attaches exception
metadata (type and message) as a structured event (spec, section 4.1). -/
def TraceState.recordException (st : TraceState) (idx : Nat)
    (etype message : String) : TraceState :=
  st.modifySpan idx
    (fun s =>
      { s with
        exceptions := s.exceptions ++ [message],
        events := s.events ++
          [⟨"exception",
            [("exception.type", .jstr etype),
             ("exception.message", .jstr message)], st.clock⟩] })

/-- Modelled from the spec: implicit close on scope exit records the end
time and pops the current-span stack, restoring the previous current span;
a status that was never set stays Unset (spec, section 4.1). -/
def TraceState.endSpan (st : TraceState) (idx : Nat) : TraceState :=
  { st.modifySpan idx (fun s => { s with endTime := some st.clock }) with
    stack := st.stack.tail }

/-- time.sleep(d): advances the wall clock by d. -/
def TraceState.sleep (st : TraceState) (d : ℚ) : TraceState :=
  { st with clock := st.clock + d }

/-- random.uniform(a, b) for a primitive draw u of random.random() in
[0, 1), per the Python library documentation: a + (b - a) * u. -/
def randomUniform (a b u : ℚ) : ℚ := a + (b - a) * u

/-- Round half to even at the last binary-independent decimal step: the
integer nearest to q, ties going to the even integer (Python round on the
exact value). -/
def roundHalfEven (q : ℚ) : ℤ :=
  let f := ⌊q⌋
  if q - f < 1 / 2 then f
  else if q - f > 1 / 2 then f + 1
  else if f % 2 = 0 then f else f + 1

/-- Python round(x, n) on the exact rational value. -/
def pyRound (q : ℚ) (n : ℕ) : ℚ :=
  (roundHalfEven (q * 10 ^ n) : ℚ) / 10 ^ n

/-- A Python exception: its type name and its message (str(e)). -/
structure Exn where
  etype : String
  message : String

/-- A handler body either returns a JSON body (jsonify, HTTP 200) or
raises an exception that propagates to Flask. -/
abbrev HandlerResult := Except Exn JValue × TraceState

/-- An HTTP response: JSON body and status code. -/
structure Response where
  body : JValue
  httpStatus : Nat

/-- The fixed users fixture of get_users in app.py. -/
structure User where
  id : ℚ
  name : String
  email : String

/-- users list literal, app.py lines 58-62. -/
def usersList : List User :=
  [⟨1, "Alice", "alice@example.com"⟩,
   ⟨2, "Bob", "bob@example.com"⟩,
   ⟨3, "Charlie", "charlie@example.com"⟩]

/-- A user dict as JSON. -/
def User.toJ (u : User) : JValue :=
  .jobj [("id", .jnum u.id), ("name", .jstr u.name),
         ("email", .jstr u.email)]

/-- The fixed orders fixture of get_orders in app.py. -/
structure Order where
  id : ℚ
  user_id : ℚ
  total : ℚ
  status : String

/-- orders list literal, app.py lines 86-90. -/
def ordersList : List Order :=
  [⟨101, 1, 99.99, "shipped"⟩,
   ⟨102, 2, 149.50, "pending"⟩,
   ⟨103, 1, 29.99, "delivered"⟩]

/-- An order dict as JSON. -/
def Order.toJ (o : Order) : JValue :=
  .jobj [("id", .jnum o.id), ("user_id", .jnum o.user_id),
         ("total", .jnum o.total), ("status", .jstr o.status)]

/-- home handler, app.py lines 20-30. -/
def home (st : TraceState) : HandlerResult :=
  let (span, st) := st.startSpan "home_handler"
  let st := st.setAttribute span "endpoint" (.jstr "/")
  let st := st.setAttribute span "handler" (.jstr "home")
  let st := st.addEvent span "Returning welcome message" []
  let body : JValue :=
    .jobj [("message", .jstr "Welcome to the traced web app!"),
           ("endpoints",
            .jarr [.jstr "/", .jstr "/health", .jstr "/api/users",
                   .jstr "/api/orders", .jstr "/api/slow"])]
  (.ok body, st.endSpan span)

/-- health handler, app.py lines 32-39; time.time() reads the clock. -/
def health (st : TraceState) : HandlerResult :=
  let (span, st) := st.startSpan "health_check"
  let st := st.setAttribute span "endpoint" (.jstr "/health")
  let st := st.setAttribute span "status" (.jstr "healthy")
  let st := st.addEvent span "Health check performed" []
  let body : JValue :=
    .jobj [("status", .jstr "healthy"), ("timestamp", .jnum st.clock)]
  (.ok body, st.endSpan span)

/-- get_users handler, app.py lines 41-67; u is the random.random() draw
behind random.uniform(0.01, 0.05). -/
def get_users (u : ℚ) (st : TraceState) : HandlerResult :=
  let (span, st) := st.startSpan "get_users"
  let st := st.setAttribute span "endpoint" (.jstr "/api/users")
  let st := st.setAttribute span "operation" (.jstr "fetch_users")
  let (dbSpan, st) := st.startSpan "database_query"
  let st := st.setAttribute dbSpan "db.system" (.jstr "postgresql")
  let st := st.setAttribute dbSpan "db.operation" (.jstr "SELECT")
  let st := st.setAttribute dbSpan "db.table" (.jstr "users")
  let delay := randomUniform 0.01 0.05 u
  let st := st.sleep delay
  let st := st.setAttribute dbSpan "db.query_time_ms"
    (.jnum (pyRound (delay * 1000) 2))
  let st := st.addEvent dbSpan "Users fetched from database" []
  let st := st.endSpan dbSpan
  let count : ℚ := usersList.length
  let st := st.setAttribute span "user.count" (.jnum count)
  let st := st.addEvent span "Users retrieved successfully"
    [("count", .jnum count)]
  let body : JValue :=
    .jobj [("users", .jarr (usersList.map User.toJ)),
           ("count", .jnum count)]
  (.ok body, st.endSpan span)

/-- get_orders handler, app.py lines 69-102; u is the random.random() draw
behind random.uniform(0.02, 0.08). -/
def get_orders (u : ℚ) (st : TraceState) : HandlerResult :=
  let (span, st) := st.startSpan "get_orders"
  let st := st.setAttribute span "endpoint" (.jstr "/api/orders")
  let st := st.setAttribute span "operation" (.jstr "fetch_orders")
  let (dbSpan, st) := st.startSpan "database_query"
  let st := st.setAttribute dbSpan "db.system" (.jstr "postgresql")
  let st := st.setAttribute dbSpan "db.operation" (.jstr "SELECT")
  let st := st.setAttribute dbSpan "db.table" (.jstr "orders")
  let delay := randomUniform 0.02 0.08 u
  let st := st.sleep delay
  let st := st.setAttribute dbSpan "db.query_time_ms"
    (.jnum (pyRound (delay * 1000) 2))
  let st := st.addEvent dbSpan "Orders fetched from database" []
  let st := st.endSpan dbSpan
  let total_value : ℚ := (ordersList.map Order.total).sum
  let count : ℚ := ordersList.length
  let st := st.setAttribute span "order.count" (.jnum count)
  let st := st.setAttribute span "order.total_value" (.jnum total_value)
  let st := st.addEvent span "Orders retrieved successfully"
    [("count", .jnum count), ("total_value", .jnum total_value)]
  let body : JValue :=
    .jobj [("orders", .jarr (ordersList.map Order.toJ)),
           ("count", .jnum count)]
  (.ok body, st.endSpan span)

/-- slow_endpoint handler, app.py lines 104-133; u is the random.random()
draw behind random.uniform(0.5, 2.0). -/
def slow_endpoint (u : ℚ) (st : TraceState) : HandlerResult :=
  let (span, st) := st.startSpan "slow_operation"
  let st := st.setAttribute span "endpoint" (.jstr "/api/slow")
  let st := st.setAttribute span "operation" (.jstr "slow_process")
  let delay := randomUniform 0.5 2.0 u
  let st := st.setAttribute span "expected_delay_seconds" (.jnum delay)
  let st := st.addEvent span "Starting slow operation"
    [("delay", .jnum delay)]
  let (step1, st) := st.startSpan "step_1_processing"
  let st := st.setAttribute step1 "step" (.jnum 1)
  let st := st.sleep (delay * 0.3)
  let st := st.addEvent step1 "Step 1 completed" []
  let st := st.endSpan step1
  let (step2, st) := st.startSpan "step_2_processing"
  let st := st.setAttribute step2 "step" (.jnum 2)
  let st := st.sleep (delay * 0.4)
  let st := st.addEvent step2 "Step 2 completed" []
  let st := st.endSpan step2
  let (step3, st) := st.startSpan "step_3_processing"
  let st := st.setAttribute step3 "step" (.jnum 3)
  let st := st.sleep (delay * 0.3)
  let st := st.addEvent step3 "Step 3 completed" []
  let st := st.endSpan step3
  let st := st.addEvent span "Slow operation completed" []
  let body : JValue :=
    .jobj [("message", .jstr "Slow response completed"),
           ("delay_seconds", .jnum delay)]
  (.ok body, st.endSpan span)

/-- error_endpoint handler, app.py lines 135-151; r is the random.random()
draw.  On the raising branch the with-block still closes the span while the
ValueError unwinds (scoped close on every exit path, spec section 4.1). -/
def error_endpoint (r : ℚ) (st : TraceState) : HandlerResult :=
  let (span, st) := st.startSpan "error_operation"
  let st := st.setAttribute span "endpoint" (.jstr "/api/error")
  let st := st.setAttribute span "operation" (.jstr "risky_operation")
  if r < 0.5 then
    let st := st.setStatus span .error "Random error occurred"
    let st := st.setAttribute span "error" (.jbool true)
    let st := st.addEvent span "Error triggered"
      [("error_type", .jstr "ValueError")]
    (.error ⟨"ValueError", "Random error occurred!"⟩, st.endSpan span)
  else
    let st := st.setStatus span .ok ""
    let st := st.addEvent span "Operation completed without error" []
    (.ok (.jobj [("message", .jstr "No error this time!")]), st.endSpan span)

/-- handle_exception, app.py lines 153-161: the global Flask errorhandler.
It reads trace.get_current_span(); when a span is active it records the
exception on it and sets its status to Error with str(e), then returns the
JSON envelope with HTTP 500.  When no span is active the tracing calls are
no-ops (the API returns a non-recording invalid span there). -/
def handle_exception (e : Exn) (st : TraceState) : Response × TraceState :=
  let st' :=
    match st.stack.head? with
    | some idx =>
        (st.recordException idx e.etype e.message).setStatus idx
          .error e.message
    | none => st
  (⟨.jobj [("error", .jstr e.message)], 500⟩, st')

/-- Flask dispatch around one handler: a normal return becomes a 200 JSON
response; a raised exception propagates to the global errorhandler, which
produces the 500 envelope. -/
def dispatch (run : TraceState → HandlerResult) (st : TraceState) :
    Response × TraceState :=
  match run st with
  | (.ok body, st') => (⟨body, 200⟩, st')
  | (.error e, st') => handle_exception e st'

/-- One inbound request, carrying the random draws its handler consumes. -/
inductive Request where
  | home : Request
  | health : Request
  | users : ℚ → Request
  | orders : ℚ → Request
  | slow : ℚ → Request
  | error : ℚ → Request

/-- A request is valid when its primitive draw lies in [0, 1), the range of
random.random(). -/
def Request.valid : Request → Bool
  | .home => true
  | .health => true
  | .users u => decide (0 ≤ u) && decide (u < 1)
  | .orders u => decide (0 ≤ u) && decide (u < 1)
  | .slow u => decide (0 ≤ u) && decide (u < 1)
  | .error r => decide (0 ≤ r) && decide (r < 1)

/-- The route path of a request. -/
def Request.route : Request → String
  | .home => "/"
  | .health => "/health"
  | .users _ => "/api/users"
  | .orders _ => "/api/orders"
  | .slow _ => "/api/slow"
  | .error _ => "/api/error"

/-- The six route paths registered with app.route in app.py, in source
order. -/
def appRoutes : List String :=
  ["/", "/health", "/api/users", "/api/orders", "/api/slow", "/api/error"]

/-- Serve one request: route it to its handler through Flask dispatch. -/
def serve : Request → TraceState → Response × TraceState
  | .home, st => dispatch home st
  | .health, st => dispatch health st
  | .users u, st => dispatch (get_users u) st
  | .orders u, st => dispatch (get_orders u) st
  | .slow u, st => dispatch (slow_endpoint u) st
  | .error r, st => dispatch (error_endpoint r) st

/-- A fresh request-local trace state whose wall clock reads t0. -/
def mkState (t0 : ℚ) : TraceState := ⟨t0, [], []⟩

/-- Serve a sequence of requests, threading the wall clock and span log. -/
def serveAll : List Request → TraceState → List Response × TraceState
  | [], st => ([], st)
  | r :: rs, st =>
      let (resp, st') := serve r st
      let (resps, st'') := serveAll rs st'
      (resp :: resps, st'')

/-- The timestamp field of a health response body. -/
def timestampOf (resp : Response) : ℚ :=
  match resp.body with
  | .jobj fields =>
      match (fields.find? (fun p => p.1 = "timestamp")).map Prod.snd with
      | some (.jnum q) => q
      | _ => 0
  | _ => 0

/-- The timestamps of the health responses, in call order, when serving a
request sequence. -/
def healthTimestamps : List Request → TraceState → List ℚ
  | [], _ => []
  | r :: rs, st =>
      let (resp, st') := serve r st
      (match r with
       | .health => [timestampOf resp]
       | _ => []) ++ healthTimestamps rs st'

/-- The duration of a span: end time minus start time, 0 while open. -/
def spanDuration (s : SpanData) : ℚ :=
  match s.endTime with
  | some e => e - s.startTime
  | none => 0

/-- The value recorded on a span for an attribute key. -/
def attrOf (s : SpanData) (k : String) : Option JValue :=
  (s.attrs.find? (fun p => p.1 = k)).map Prod.snd

/-- The first event of a span with the given name. -/
def eventNamed (s : SpanData) (n : String) : Option SpanEvent :=
  s.events.find? (fun ev => ev.name = n)

/-- The endpoints array of the static payload home returns, app.py line
29. -/
def homeEndpoints : List String :=
  ["/", "/health", "/api/users", "/api/orders", "/api/slow"]

/-! Helper lemmas. -/

/-- Reading back the updated index of updateAt applies the update to the
element read before. -/
theorem updateAt_getElem (f : α → α) :
    ∀ (n : Nat) (l : List α), (updateAt f n l)[n]? = (l[n]?).map f
  | _, [] => by simp [updateAt]
  | 0, _ :: _ => by simp [updateAt]
  | n + 1, _ :: as => by simp [updateAt, updateAt_getElem f n as]

/-- The global errorhandler never moves the wall clock. -/
theorem handle_exception_clock (e : Exn) (st : TraceState) :
    (handle_exception e st).2.clock = st.clock := by
  unfold handle_exception
  cases st.stack.head? <;> rfl

/-- Serving the home route closes its span with end time at or after the
start time and leaves no span open. -/
theorem closed_home (t0 : ℚ) :
    (serve .home (mkState t0)).2.stack = [] ∧
    ∀ s ∈ (serve .home (mkState t0)).2.spans,
      ∃ e, s.endTime = some e ∧ s.startTime ≤ e := by
  constructor
  · rfl
  · simp [serve, dispatch, home, mkState, TraceState.startSpan,
      TraceState.setAttribute, TraceState.addEvent, TraceState.endSpan,
      TraceState.modifySpan, setKey, updateAt]

/-- Serving the health route closes its span with end time at or after the
start time and leaves no span open. -/
theorem closed_health (t0 : ℚ) :
    (serve .health (mkState t0)).2.stack = [] ∧
    ∀ s ∈ (serve .health (mkState t0)).2.spans,
      ∃ e, s.endTime = some e ∧ s.startTime ≤ e := by
  constructor
  · rfl
  · simp [serve, dispatch, health, mkState, TraceState.startSpan,
      TraceState.setAttribute, TraceState.addEvent, TraceState.endSpan,
      TraceState.modifySpan, setKey, updateAt]

/-- Serving the users route closes both its spans with end times at or
after their start times and leaves no span open. -/
theorem closed_users (v t0 : ℚ) (hv : 0 ≤ v) :
    (serve (.users v) (mkState t0)).2.stack = [] ∧
    ∀ s ∈ (serve (.users v) (mkState t0)).2.spans,
      ∃ e, s.endTime = some e ∧ s.startTime ≤ e := by
  constructor
  · rfl
  · simp [serve, dispatch, get_users, mkState, TraceState.startSpan,
      TraceState.setAttribute, TraceState.addEvent, TraceState.endSpan,
      TraceState.modifySpan, TraceState.sleep, setKey, updateAt,
      randomUniform]
    norm_num
    nlinarith

/-- Serving the orders route closes both its spans with end times at or
after their start times and leaves no span open. -/
theorem closed_orders (v t0 : ℚ) (hv : 0 ≤ v) :
    (serve (.orders v) (mkState t0)).2.stack = [] ∧
    ∀ s ∈ (serve (.orders v) (mkState t0)).2.spans,
      ∃ e, s.endTime = some e ∧ s.startTime ≤ e := by
  constructor
  · rfl
  · simp [serve, dispatch, get_orders, mkState, TraceState.startSpan,
      TraceState.setAttribute, TraceState.addEvent, TraceState.endSpan,
      TraceState.modifySpan, TraceState.sleep, setKey, updateAt,
      randomUniform]
    norm_num
    nlinarith

set_option maxHeartbeats 800000 in
/-- Serving the slow route closes all four of its spans with end times at
or after their start times and leaves no span open. -/
theorem closed_slow (v t0 : ℚ) (hv : 0 ≤ v) :
    (serve (.slow v) (mkState t0)).2.stack = [] ∧
    ∀ s ∈ (serve (.slow v) (mkState t0)).2.spans,
      ∃ e, s.endTime = some e ∧ s.startTime ≤ e := by
  constructor
  · rfl
  · simp [serve, dispatch, slow_endpoint, mkState, TraceState.startSpan,
      TraceState.setAttribute, TraceState.addEvent, TraceState.endSpan,
      TraceState.modifySpan, TraceState.sleep, setKey, updateAt,
      randomUniform]
    norm_num
    all_goals constructor <;> nlinarith

/-- Serving the error route closes its span on both branches, with end
time at or after the start time, and leaves no span open. -/
theorem closed_error (r t0 : ℚ) :
    (serve (.error r) (mkState t0)).2.stack = [] ∧
    ∀ s ∈ (serve (.error r) (mkState t0)).2.spans,
      ∃ e, s.endTime = some e ∧ s.startTime ≤ e := by
  by_cases hr : r < 0.5 <;>
    (constructor <;>
      simp [serve, dispatch, error_endpoint, handle_exception, mkState,
        TraceState.startSpan, TraceState.setAttribute, TraceState.setStatus,
        TraceState.addEvent, TraceState.endSpan, TraceState.modifySpan,
        setKey, updateAt, hr])

/-- The slow route opens exactly four spans. -/
theorem slow_span_count (u t0 : ℚ) :
    (serve (.slow u) (mkState t0)).2.spans.length = 4 := by
  simp [serve, dispatch, slow_endpoint, mkState, TraceState.startSpan,
    TraceState.setAttribute, TraceState.addEvent, TraceState.endSpan,
    TraceState.modifySpan, TraceState.sleep, setKey, updateAt]

/-- Serving any valid request never moves the wall clock backwards. -/
theorem serve_clock_mono (r : Request) (st : TraceState)
    (h : r.valid = true) : st.clock ≤ (serve r st).2.clock := by
  cases r with
  | home =>
      simp [serve, dispatch, home, TraceState.startSpan,
        TraceState.setAttribute, TraceState.addEvent, TraceState.endSpan,
        TraceState.modifySpan, setKey, updateAt]
  | health =>
      simp [serve, dispatch, health, TraceState.startSpan,
        TraceState.setAttribute, TraceState.addEvent, TraceState.endSpan,
        TraceState.modifySpan, setKey, updateAt]
  | users v =>
      simp [Request.valid] at h
      simp [serve, dispatch, get_users, TraceState.startSpan,
        TraceState.setAttribute, TraceState.addEvent, TraceState.endSpan,
        TraceState.modifySpan, TraceState.sleep, setKey, updateAt,
        randomUniform]
      nlinarith [h.1]
  | orders v =>
      simp [Request.valid] at h
      simp [serve, dispatch, get_orders, TraceState.startSpan,
        TraceState.setAttribute, TraceState.addEvent, TraceState.endSpan,
        TraceState.modifySpan, TraceState.sleep, setKey, updateAt,
        randomUniform]
      nlinarith [h.1]
  | slow v =>
      simp [Request.valid] at h
      simp [serve, dispatch, slow_endpoint, TraceState.startSpan,
        TraceState.setAttribute, TraceState.addEvent, TraceState.endSpan,
        TraceState.modifySpan, TraceState.sleep, setKey, updateAt,
        randomUniform]
      nlinarith [h.1]
  | error r =>
      by_cases hr : r < 0.5 <;>
        simp [serve, dispatch, error_endpoint, handle_exception_clock,
          TraceState.startSpan, TraceState.setAttribute,
          TraceState.setStatus, TraceState.addEvent, TraceState.endSpan,
          TraceState.modifySpan, setKey, updateAt, hr]

/-- The health response reports the wall clock at the moment of the call
as its timestamp. -/
theorem health_timestamp_is_clock (st : TraceState) :
    timestampOf (serve .health st).1 = st.clock := rfl

/-- Every health timestamp produced while serving a valid request
sequence is at or after the starting wall clock. -/
theorem healthTimestamps_lower_bound (reqs : List Request)
    (st : TraceState) (h : ∀ r ∈ reqs, r.valid = true) :
    ∀ q ∈ healthTimestamps reqs st, st.clock ≤ q := by
  induction reqs generalizing st with
  | nil => simp [healthTimestamps]
  | cons r rs ih =>
      intro q hq
      have hr : r.valid = true := h r (by simp)
      have hrest : ∀ x ∈ rs, x.valid = true := fun x hx => h x (by simp [hx])
      have hmono := serve_clock_mono r st hr
      simp only [healthTimestamps, List.mem_append] at hq
      rcases hq with hq | hq
      · cases r <;> simp only [List.mem_singleton, List.not_mem_nil] at hq
        exact le_of_eq (by rw [hq, health_timestamp_is_clock])
      · exact le_trans hmono (ih (serve r st).2 hrest q hq)

/-- The health timestamps of a valid request sequence are pairwise
non-decreasing, from any starting state. -/
theorem healthTimestamps_sorted (reqs : List Request) (st : TraceState)
    (h : ∀ r ∈ reqs, r.valid = true) :
    List.Pairwise (· ≤ ·) (healthTimestamps reqs st) := by
  induction reqs generalizing st with
  | nil => simp [healthTimestamps]
  | cons r rs ih =>
      have hr : r.valid = true := h r (by simp)
      have hrest : ∀ x ∈ rs, x.valid = true := fun x hx => h x (by simp [hx])
      have hmono := serve_clock_mono r st hr
      have hlb := healthTimestamps_lower_bound rs (serve r st).2 hrest
      have hih := ih (serve r st).2 hrest
      cases r with
      | health =>
          simp only [healthTimestamps, List.singleton_append]
          exact List.Pairwise.cons
            (fun q hq => le_trans (le_of_eq (health_timestamp_is_clock st))
              (le_trans hmono (hlb q hq))) hih
      | home => simpa only [healthTimestamps, List.nil_append] using hih
      | users v => simpa only [healthTimestamps, List.nil_append] using hih
      | orders v => simpa only [healthTimestamps, List.nil_append] using hih
      | slow v => simpa only [healthTimestamps, List.nil_append] using hih
      | error v => simpa only [healthTimestamps, List.nil_append] using hih

/-! The claims. -/

/-- C1: on a request to /api/error the handler raises exactly when the
random draw is below 0.5; on that branch it sets the span status to Error,
records an error event, and the dispatched response is the 500 envelope
with error message "Random error occurred!"; otherwise it sets status Ok,
records a success event, and the response is 200 with message "No error
this time!". -/
theorem error_endpoint_contract (r t0 : ℚ) :
    ((error_endpoint r (mkState t0)).1 =
        .error ⟨"ValueError", "Random error occurred!"⟩ ↔ r < 0.5) ∧
    (r < 0.5 →
      (serve (.error r) (mkState t0)).1 =
        ⟨.jobj [("error", .jstr "Random error occurred!")], 500⟩ ∧
      ∃ s, (serve (.error r) (mkState t0)).2.spans = [s] ∧
        s.status.code = .error ∧
        (eventNamed s "Error triggered").isSome = true) ∧
    (0.5 ≤ r →
      (serve (.error r) (mkState t0)).1 =
        ⟨.jobj [("message", .jstr "No error this time!")], 200⟩ ∧
      ∃ s, (serve (.error r) (mkState t0)).2.spans = [s] ∧
        s.status.code = .ok ∧
        (eventNamed s "Operation completed without error").isSome = true) := by
  by_cases h : r < 0.5
  · refine ⟨by simp [error_endpoint, mkState, TraceState.startSpan,
      TraceState.setAttribute, TraceState.setStatus, TraceState.addEvent,
      TraceState.endSpan, TraceState.modifySpan, setKey, updateAt, h],
      fun _ => ?_, fun h2 => absurd h (not_lt.mpr h2)⟩
    simp [serve, dispatch, error_endpoint, handle_exception, mkState,
      TraceState.startSpan, TraceState.setAttribute, TraceState.setStatus,
      TraceState.addEvent, TraceState.endSpan, TraceState.modifySpan,
      setKey, updateAt, eventNamed, h]
  · refine ⟨by simp [error_endpoint, mkState, TraceState.startSpan,
      TraceState.setAttribute, TraceState.setStatus, TraceState.addEvent,
      TraceState.endSpan, TraceState.modifySpan, setKey, updateAt, h],
      fun h2 => absurd h2 h, fun _ => ?_⟩
    simp [serve, dispatch, error_endpoint, handle_exception, mkState,
      TraceState.startSpan, TraceState.setAttribute, TraceState.setStatus,
      TraceState.addEvent, TraceState.endSpan, TraceState.modifySpan,
      setKey, updateAt, eventNamed, h]

/-- C2 (amended): serving any valid request leaves no span open and every
span created got an end time at or after its start time, on the raising
path of /api/error as well; the /api/slow handler opens four spans — not
five — and all of them close. -/
theorem spans_closed_on_all_paths (req : Request) (u t0 : ℚ)
    (h : req.valid = true) :
    ((serve req (mkState t0)).2.stack = [] ∧
     ∀ s ∈ (serve req (mkState t0)).2.spans,
       ∃ e, s.endTime = some e ∧ s.startTime ≤ e) ∧
    (serve (.slow u) (mkState t0)).2.spans.length = 4 := by
  refine ⟨?_, slow_span_count u t0⟩
  cases req with
  | home => exact closed_home t0
  | health => exact closed_health t0
  | users v =>
      simp [Request.valid] at h
      exact closed_users v t0 h.1
  | orders v =>
      simp [Request.valid] at h
      exact closed_orders v t0 h.1
  | slow v =>
      simp [Request.valid] at h
      exact closed_slow v t0 h.1
  | error r => exact closed_error r t0

/-- C2 witness: the raising error route at draw 1/4 closes its span, and
the slow route at draw 1/2 records exactly four spans. -/
theorem spans_closed_on_all_paths_witness :
    ((serve (.error (1/4)) (mkState 0)).2.stack = [] ∧
     ∀ s ∈ (serve (.error (1/4)) (mkState 0)).2.spans,
       ∃ e, s.endTime = some e ∧ s.startTime ≤ e) ∧
    (serve (.slow (1/2)) (mkState 0)).2.spans.length = 4 :=
  spans_closed_on_all_paths (.error (1/4)) (1/2) 0
    (by simp [Request.valid]; norm_num)

/-- C2 counterexample to the stated span count: /api/slow opens four
spans, named below, not five. -/
theorem slow_opens_four_spans :
    (serve (.slow 0) (mkState 0)).2.spans.map SpanData.name =
      ["slow_operation", "step_1_processing", "step_2_processing",
       "step_3_processing"] ∧
    (serve (.slow 0) (mkState 0)).2.spans.length = 4 ∧ (4 : ℕ) ≠ 5 := by
  refine ⟨?_, ?_, by decide⟩ <;>
    simp [serve, dispatch, slow_endpoint, mkState, TraceState.startSpan,
      TraceState.setAttribute, TraceState.addEvent, TraceState.endSpan,
      TraceState.modifySpan, TraceState.sleep, setKey, updateAt]

/-- C3: for any uncaught exception, whenever a span is currently active the
global errorhandler records the exception on that span, sets its status to
Error with the exception message, and returns the JSON error envelope with
HTTP status 500. -/
theorem handle_exception_records (e : Exn) (st : TraceState) (idx : Nat)
    (s : SpanData) (hcur : st.stack.head? = some idx)
    (hs : st.spans[idx]? = some s) :
    (handle_exception e st).1 =
      ⟨.jobj [("error", .jstr e.message)], 500⟩ ∧
    (handle_exception e st).2.spans[idx]? = some
      { s with
        status := ⟨.error, e.message⟩,
        exceptions := s.exceptions ++ [e.message],
        events := s.events ++
          [⟨"exception",
            [("exception.type", .jstr e.etype),
             ("exception.message", .jstr e.message)], st.clock⟩] } := by
  constructor
  · simp [handle_exception, hcur]
  · simp [handle_exception, hcur, TraceState.setStatus,
      TraceState.recordException, TraceState.modifySpan, updateAt_getElem,
      hs]

/-- C3 witness: a ValueError hitting the errorhandler while one open span
is active gets recorded on that span, whose status turns Error, and the
response is the 500 envelope. -/
theorem handle_exception_records_witness :
    (handle_exception ⟨"ValueError", "boom"⟩
        ⟨5, [⟨"w", 1, none, ⟨.unset, ""⟩, [], [], [], none⟩], [0]⟩).1 =
      ⟨.jobj [("error", .jstr "boom")], 500⟩ ∧
    (handle_exception ⟨"ValueError", "boom"⟩
        ⟨5, [⟨"w", 1, none, ⟨.unset, ""⟩, [], [], [], none⟩], [0]⟩).2.spans[0]? =
      some ⟨"w", 1, none, ⟨.error, "boom"⟩, [],
        [⟨"exception",
          [("exception.type", .jstr "ValueError"),
           ("exception.message", .jstr "boom")], 5⟩], ["boom"], none⟩ :=
  handle_exception_records ⟨"ValueError", "boom"⟩
    ⟨5, [⟨"w", 1, none, ⟨.unset, ""⟩, [], [], [], none⟩], [0]⟩ 0
    ⟨"w", 1, none, ⟨.unset, ""⟩, [], [], [], none⟩ rfl rfl

/-- C4: the five handlers that never call set_status close every span with
status Unset (not Ok), and Ok appears exactly where it is set explicitly:
the non-raising branch of /api/error. -/
theorem unset_status_default (u r t0 : ℚ) (hr : 0.5 ≤ r) :
    (∀ s ∈ (serve .home (mkState t0)).2.spans, s.status = ⟨.unset, ""⟩) ∧
    (∀ s ∈ (serve .health (mkState t0)).2.spans, s.status = ⟨.unset, ""⟩) ∧
    (∀ s ∈ (serve (.users u) (mkState t0)).2.spans,
      s.status = ⟨.unset, ""⟩) ∧
    (∀ s ∈ (serve (.orders u) (mkState t0)).2.spans,
      s.status = ⟨.unset, ""⟩) ∧
    (∀ s ∈ (serve (.slow u) (mkState t0)).2.spans,
      s.status = ⟨.unset, ""⟩) ∧
    (∀ s ∈ (serve (.error r) (mkState t0)).2.spans,
      s.status = ⟨.ok, ""⟩) := by
  have h : ¬ r < 0.5 := not_lt.mpr hr
  refine ⟨?_, ?_, ?_, ?_, ?_, ?_⟩ <;>
    simp [serve, dispatch, home, health, get_users, get_orders,
      slow_endpoint, error_endpoint, handle_exception, mkState,
      TraceState.startSpan, TraceState.setAttribute, TraceState.setStatus,
      TraceState.addEvent, TraceState.endSpan, TraceState.modifySpan,
      TraceState.sleep, setKey, updateAt, h]

/-- C4 witness: at draws 1/3 and 3/4 every span of the five status-silent
handlers closes Unset and the error route's success branch closes Ok. -/
theorem unset_status_default_witness :
    (∀ s ∈ (serve .home (mkState 0)).2.spans, s.status = ⟨.unset, ""⟩) ∧
    (∀ s ∈ (serve .health (mkState 0)).2.spans, s.status = ⟨.unset, ""⟩) ∧
    (∀ s ∈ (serve (.users (1/3)) (mkState 0)).2.spans,
      s.status = ⟨.unset, ""⟩) ∧
    (∀ s ∈ (serve (.orders (1/3)) (mkState 0)).2.spans,
      s.status = ⟨.unset, ""⟩) ∧
    (∀ s ∈ (serve (.slow (1/3)) (mkState 0)).2.spans,
      s.status = ⟨.unset, ""⟩) ∧
    (∀ s ∈ (serve (.error (3/4)) (mkState 0)).2.spans,
      s.status = ⟨.ok, ""⟩) :=
  unset_status_default (1/3) (3/4) 0 (by norm_num)

/-- C5: every /api/users response is the fixed three-user fixture together
with a count field equal to the length of the users list, which is 3. -/
theorem users_count_matches (u t0 : ℚ) :
    (serve (.users u) (mkState t0)).1 =
      ⟨.jobj [("users", .jarr (usersList.map User.toJ)),
              ("count", .jnum usersList.length)], 200⟩ ∧
    usersList.length = 3 :=
  ⟨rfl, rfl⟩

/-- C6: on every /api/orders request the outer span records the attribute
order.total_value as the sum of the three fixture totals, that sum is
99.99 + 149.50 + 29.99 = 279.48 exactly, and the completion event carries
the same total_value in its payload. -/
theorem orders_total_value (u t0 : ℚ) :
    ∃ s, (serve (.orders u) (mkState t0)).2.spans.head? = some s ∧
      s.name = "get_orders" ∧
      attrOf s "order.total_value" =
        some (.jnum ((ordersList.map Order.total).sum)) ∧
      (ordersList.map Order.total).sum = 99.99 + 149.50 + 29.99 ∧
      (99.99 + 149.50 + 29.99 : ℚ) = 279.48 ∧
      ∃ ev, eventNamed s "Orders retrieved successfully" = some ev ∧
        (ev.payload.find? (fun p => p.1 = "total_value")).map Prod.snd =
          some (.jnum ((ordersList.map Order.total).sum)) := by
  refine ⟨_, rfl, ?_⟩
  simp [serve, dispatch, get_orders, mkState, TraceState.startSpan,
    TraceState.setAttribute, TraceState.addEvent, TraceState.endSpan,
    TraceState.modifySpan, TraceState.sleep, setKey, updateAt, attrOf,
    eventNamed, ordersList]
  norm_num

/-- C7: on every /api/slow request with draw u in [0, 1), the randomized
delay lies in [0.5, 2.0), the response echoes it as delay_seconds, the four
spans last the full delay and 30, 40 and 30 percent of it respectively,
and the three step durations sum exactly to the delay. -/
theorem slow_delay_properties (u t0 : ℚ) (h0 : 0 ≤ u) (h1 : u < 1) :
    1/2 ≤ randomUniform 0.5 2.0 u ∧ randomUniform 0.5 2.0 u < 2 ∧
    (serve (.slow u) (mkState t0)).1 =
      ⟨.jobj [("message", .jstr "Slow response completed"),
              ("delay_seconds", .jnum (randomUniform 0.5 2.0 u))], 200⟩ ∧
    (serve (.slow u) (mkState t0)).2.spans.map spanDuration =
      [randomUniform 0.5 2.0 u,
       0.3 * randomUniform 0.5 2.0 u,
       0.4 * randomUniform 0.5 2.0 u,
       0.3 * randomUniform 0.5 2.0 u] ∧
    0.3 * randomUniform 0.5 2.0 u + 0.4 * randomUniform 0.5 2.0 u +
      0.3 * randomUniform 0.5 2.0 u = randomUniform 0.5 2.0 u := by
  refine ⟨by simp [randomUniform]; nlinarith,
          by simp [randomUniform]; nlinarith, rfl, ?_, by ring⟩
  simp [serve, dispatch, slow_endpoint, mkState, TraceState.startSpan,
    TraceState.setAttribute, TraceState.addEvent, TraceState.endSpan,
    TraceState.modifySpan, TraceState.sleep, setKey, updateAt,
    spanDuration, randomUniform]
  norm_num
  ring_nf
  simp

/-- C7 witness: at draw 0 the delay is 1/2, inside [0.5, 2.0), the
response echoes it, and the step durations are the three fractions of it
summing back to it. -/
theorem slow_delay_properties_witness :
    1/2 ≤ randomUniform 0.5 2.0 0 ∧ randomUniform 0.5 2.0 0 < 2 ∧
    (serve (.slow 0) (mkState 0)).1 =
      ⟨.jobj [("message", .jstr "Slow response completed"),
              ("delay_seconds", .jnum (randomUniform 0.5 2.0 0))], 200⟩ ∧
    (serve (.slow 0) (mkState 0)).2.spans.map spanDuration =
      [randomUniform 0.5 2.0 0,
       0.3 * randomUniform 0.5 2.0 0,
       0.4 * randomUniform 0.5 2.0 0,
       0.3 * randomUniform 0.5 2.0 0] ∧
    0.3 * randomUniform 0.5 2.0 0 + 0.4 * randomUniform 0.5 2.0 0 +
      0.3 * randomUniform 0.5 2.0 0 = randomUniform 0.5 2.0 0 :=
  slow_delay_properties 0 0 (by norm_num) (by norm_num)

/-- C8 (amended): every request to / returns the static welcome payload
whose endpoints array lists five of the six registered routes — each entry
is a registered route, and exactly /api/error is omitted. -/
theorem home_response_lists_five_routes (t0 : ℚ) :
    (serve .home (mkState t0)).1 =
      ⟨.jobj [("message", .jstr "Welcome to the traced web app!"),
              ("endpoints", .jarr (homeEndpoints.map JValue.jstr))], 200⟩ ∧
    homeEndpoints = appRoutes.filter (fun p => p ≠ "/api/error") ∧
    ∀ p ∈ homeEndpoints, p ∈ appRoutes :=
  ⟨rfl, by decide, by decide⟩

/-- C8 counterexample: /api/error is a registered route of the service but
the endpoints array of the home payload does not list it. -/
theorem home_endpoints_omit_error_route :
    "/api/error" ∈ appRoutes ∧
    (serve .home (mkState 0)).1 =
      ⟨.jobj [("message", .jstr "Welcome to the traced web app!"),
              ("endpoints", .jarr (homeEndpoints.map JValue.jstr))], 200⟩ ∧
    "/api/error" ∉ homeEndpoints :=
  ⟨by decide, rfl, by decide⟩

/-- C9: over any sequence of valid sequential requests, the timestamps of
the /health responses, in call order, are pairwise non-decreasing. -/
theorem health_timestamps_monotone (reqs : List Request) (t0 : ℚ)
    (h : ∀ r ∈ reqs, r.valid = true) :
    List.Pairwise (· ≤ ·) (healthTimestamps reqs (mkState t0)) :=
  healthTimestamps_sorted reqs (mkState t0) h

/-- C9 witness: a concrete sequence interleaving health checks with the
sleeping routes yields non-decreasing health timestamps. -/
theorem health_timestamps_monotone_witness :
    List.Pairwise (· ≤ ·)
      (healthTimestamps
        [.health, .users (1/2), .health, .slow (1/3), .error (1/4), .health]
        (mkState 0)) :=
  health_timestamps_monotone
    [.health, .users (1/2), .health, .slow (1/3), .error (1/4), .health]
    0 (by intro r hr; fin_cases hr <;> simp [Request.valid] <;> norm_num)

/-- C10 (amended): on every failing /api/error request the handler sets the
span status to Error with message "Random error occurred" (no exclamation
mark); the span closes while the ValueError unwinds, so the global
errorhandler finds no active span, records nothing and changes no span, and
the final status message of the span stays "Random error occurred". -/
theorem error_status_message_final (r t0 : ℚ) (h : r < 0.5) :
    (serve (.error r) (mkState t0)).2.spans.map SpanData.status =
      [⟨.error, "Random error occurred"⟩] ∧
    (serve (.error r) (mkState t0)).2.spans.map SpanData.exceptions =
      [[]] ∧
    (error_endpoint r (mkState t0)).2.stack = [] ∧
    (serve (.error r) (mkState t0)).2 =
      (error_endpoint r (mkState t0)).2 := by
  refine ⟨?_, ?_, ?_, ?_⟩ <;>
    simp [serve, dispatch, error_endpoint, handle_exception, mkState,
      TraceState.startSpan, TraceState.setAttribute, TraceState.setStatus,
      TraceState.addEvent, TraceState.endSpan, TraceState.modifySpan,
      setKey, updateAt, h]

/-- C10 witness: at draw 1/4 the failing request leaves the single span
with status message "Random error occurred", no recorded exception, and a
state the global errorhandler did not touch. -/
theorem error_status_message_final_witness :
    (serve (.error (1/4)) (mkState 1)).2.spans.map SpanData.status =
      [⟨.error, "Random error occurred"⟩] ∧
    (serve (.error (1/4)) (mkState 1)).2.spans.map SpanData.exceptions =
      [[]] ∧
    (error_endpoint (1/4) (mkState 1)).2.stack = [] ∧
    (serve (.error (1/4)) (mkState 1)).2 =
      (error_endpoint (1/4) (mkState 1)).2 :=
  error_status_message_final (1/4) 1 (by norm_num)

/-- C10 counterexample: at draw 0 the span's final status message is
"Random error occurred", which differs from the "Random error occurred!"
the claim says it ends with. -/
theorem error_status_message_concrete :
    (serve (.error 0) (mkState 0)).2.spans.map SpanData.status =
      [⟨.error, "Random error occurred"⟩] ∧
    ("Random error occurred" : String) ≠ "Random error occurred!" := by
  constructor
  · simp [serve, dispatch, error_endpoint, handle_exception, mkState,
      TraceState.startSpan, TraceState.setAttribute, TraceState.setStatus,
      TraceState.addEvent, TraceState.endSpan, TraceState.modifySpan,
      setKey, updateAt, show (0:ℚ) < 0.5 by norm_num]
  · decide

end AppTrace
